import Mathlib

/-!
A shallow embedding of the `lacrosse_view` Python client library
(`src/lacrosse_view/__init__.py`).  Network effects are modelled by
passing the server responses in explicitly; each operation returns, next
to its Python outcome (`Except` models raised exceptions), the list of
request URLs it issued, in order.  Mutation of `self.token` is modelled
by returning the updated `Session`.  The two transport branches of every
operation (self-managed `aiohttp` session vs caller-supplied session)
execute identical logic and are modelled once.
-/

namespace LacrosseView

/-- Python exception taxonomy as raised by the library code paths:
`loginError` and `httpError` are the library's own `LoginError` and
`HTTPError` classes; `valueError` models the `ValueError` raised by the
start/end validation in `get_sensors`; `pydanticError` models
`pydantic.ValidationError` raised by `Sensor(**device)`; `typeError` and
`keyError` model the built-in exceptions raised by subscripting `None` or
a missing key; `unknownTimeZoneError` models `pytz.UnknownTimeZoneError`
raised by `timezone(tz)`. -/
inductive PyError where
  | loginError (msg : String)
  | httpError (msg : String)
  | valueError (msg : String)
  | pydanticError (msg : String)
  | typeError (msg : String)
  | keyError (msg : String)
  | unknownTimeZoneError (tz : String)
  deriving DecidableEq

/-- Discriminator for the `except HTTPError` clause of `_retry`: only
`HTTPError` instances are caught, every other exception escapes. -/
def PyError.isHTTP : PyError → Bool
  | PyError.httpError _ => true
  | _ => false

/-- Observable outcome of one run of the `_retry` wrapper: the Python
result, how many times the wrapped coroutine was invoked, and how many
`asyncio.sleep(1)` pauses were executed. -/
structure RetryOutcome (A : Type) where
  result : Except PyError A
  calls : Nat
  sleeps : Nat

/-- The loop body of `_retry.wrapper`, with `retries` playing the role of
`update_retries` (the remaining credits at loop entry).  The wrapped
coroutine's behaviour on its `i`-th invocation is `f i` (same arguments
each time; only the environment may differ).  On success the loop breaks;
on an `HTTPError` one credit is consumed, and if credits hit zero the
error is re-raised, otherwise the wrapper sleeps one second and retries;
any other exception is not caught and propagates at once.  The cases
`retries = 0` and `retries = 1` coincide observably: with one credit left
an `HTTPError` is re-raised immediately (and `retries = 0` is never
reached from `retryWrap`). -/
def retryGo {A : Type} (f : Nat → Except PyError A) : Nat → Nat → RetryOutcome A
  | idx, n + 2 =>
    match f idx with
    | Except.ok a => ⟨Except.ok a, 1, 0⟩
    | Except.error e =>
      if e.isHTTP then
        let o := retryGo f (idx + 1) (n + 1)
        ⟨o.result, o.calls + 1, o.sleeps + 1⟩
      else ⟨Except.error e, 1, 0⟩
  | idx, _ => ⟨f idx, 1, 0⟩

/-- The `_retry` decorator applied to an operation: `update_retries = 5`. -/
def retryWrap {A : Type} (f : Nat → Except PyError A) : RetryOutcome A :=
  retryGo f 0 5

/-- Session state of a `LaCrosse` instance: the `self.token` attribute.
`some ""` is the initial, unauthenticated value; `none` models Python
`None` (which `login` can store before raising); `some t` with `t ≠ ""`
is an authenticated token. -/
structure Session where
  token : Option String
  deriving DecidableEq

/-- Result of the wire endpoints: a location record with `id` and `name`
extracted from a response item (extra fields are ignored). -/
structure Location where
  id : String
  name : String
  deriving DecidableEq

/-- A JSON value, used for the parsed per-device feed response body and
for the `data` payload stored in a `Sensor`. -/
inductive Json where
  | null : Json
  | bool (b : Bool) : Json
  | num (n : Int) : Json
  | str (s : String) : Json
  | arr (elems : List Json) : Json
  | obj (entries : List (String × Json)) : Json

/-- Model of Python `d.get(k)` on a parsed JSON body: on an object it
returns the bound value, or `none` (Python `None`) when the key is
missing; on a non-object the attribute access itself raises. -/
def dictGet (j : Json) (k : String) : Except PyError (Option Json) :=
  match j with
  | Json.obj entries => Except.ok (entries.lookup k)
  | _ => Except.error (PyError.typeError ("object has no attribute get: " ++ k))

/-- Model of Python `x[k]` subscription on a JSON value: `KeyError` when
the key is missing, `TypeError` when the value is not an object. -/
def subscript (j : Json) (k : String) : Except PyError Json :=
  match j with
  | Json.obj entries =>
    match entries.lookup k with
    | some v => Except.ok v
    | none => Except.error (PyError.keyError k)
  | _ => Except.error (PyError.typeError ("value is not subscriptable: " ++ k))

/-- `data.get("ref.user-device." + device_id)["ai.ticks.1"]["fields"]`,
the extraction of the time-series payload from a feed response body
(line 229 of `__init__.py`): a missing device key yields `None`, whose
subscription raises `TypeError`. -/
def extractFeed (body : Json) (deviceId : String) : Except PyError Json :=
  match dictGet body ("ref.user-device." ++ deviceId) with
  | Except.error e => Except.error e
  | Except.ok none =>
    Except.error (PyError.typeError "NoneType object is not subscriptable")
  | Except.ok (some v) =>
    match subscript v "ai.ticks.1" with
    | Except.error e => Except.error e
    | Except.ok agg => subscript agg "fields"

/-- Nested `sensor` object of one item of the sensor-association
response: `sensor["id"]`, `sensor["type"]["name"]`, `sensor["fields"]`,
and `sensor.get("permissions")` (which is `none` when the key is absent,
modelling the `None` that `.get` returns). -/
structure SensorInfo where
  id : String
  typeName : String
  fields : List String
  permissions : Option (List (String × Bool))
  deriving DecidableEq

/-- One item of the sensor-association response: `device["id"]`,
`device["name"]` and the nested `device["sensor"]` object. -/
structure DeviceEntry where
  id : String
  name : String
  sensor : SensorInfo
  deriving DecidableEq

/-- Response to the sensor-association GET: the HTTP status and the
body's `items` entry (`none` models a body where `data.get("items")`
returns `None`, making the `for` loop raise `TypeError`). -/
structure AssocResp where
  status : Nat
  items : Option (List DeviceEntry)

/-- Response to one per-device feed GET: HTTP status plus parsed body. -/
structure FeedResp where
  status : Nat
  body : Json

/-- The server behaviour observed by one `get_sensors` call: the
association response, and the feed response returned for each device id
(each device is queried once, at a URL determined by its id and the
call's arguments). -/
structure SensorsServer where
  assoc : AssocResp
  feed : String → FeedResp

/-- Response to the locations GET: HTTP status plus the body's `items`
list, each item reduced to the `id` and `name` fields the code extracts
(`none` models a body without an `items` key, on which `data["items"]`
raises `KeyError`). -/
structure LocResp where
  status : Nat
  items : Option (List (String × String))

/-- Response to the logout DELETE: HTTP status plus the body's `message`
entry (`none` models a body without the key, on which `data["message"]`
raises `KeyError`). -/
structure LogoutResp where
  status : Nat
  message : Option String

/-- The pydantic `Sensor` model (lines 285-296 of `__init__.py`): every
field, `permissions` and `model` included, is declared without a default
and is therefore required. -/
structure Sensor where
  name : String
  device_id : String
  type : String
  sensor_id : String
  sensor_field_names : List String
  location : Location
  permissions : List (String × Bool)
  model : String
  data : Json

/-- The locations endpoint URL. -/
def LOCATIONS_URL : String :=
  "https://lax-gateway.appspot.com/_ah/api/lacrosseClient/v1.1/active-user/locations"

/-- The sensor-associations endpoint URL for a location id. -/
def sensorsUrl (locationId : String) : String :=
  "https://lax-gateway.appspot.com/_ah/api/lacrosseClient/v1.1/active-user/location/"
    ++ locationId ++ "/sensorAssociations?prettyPrint=false"

/-- The logout endpoint URL. -/
def LOGOUT_URL : String :=
  "https://lax-gateway.appspot.com/_ah/api/lacrosseClient/v1.1/user/devices?prettyPrint=false"

/-- Python `str.format` interpolation of an optional value: `None`
renders as the four-character string `None`. -/
def pyFormatOpt : Option String → String
  | none => "None"
  | some s => s

/-- The per-device feed URL (the `.format` template at lines 192-208). -/
def deviceUrl (id fields tz fromS toS agg : String) : String :=
  "https://ingv2.lacrossetechnology.com/api/v1.1/active-user/device-association/ref.user-device."
    ++ id ++ "/feed?fields=" ++ fields ++ "&tz=" ++ tz ++ "&from=" ++ fromS
    ++ "&to=" ++ toS ++ "&aggregates=" ++ agg ++ "&types=spot"

/-- Python `str.lower`, restricted to the ASCII case mapping the inputs
of interest use. -/
def pyLower (s : String) : String := String.mk (s.data.map Char.toLower)

/-- ASCII whitespace stripped by Python `int(...)` around its argument. -/
def pyIsWs (c : Char) : Bool :=
  c == ' ' || c == '\t' || c == '\n' || c == '\r'

/-- Strip leading and trailing whitespace from a character list. -/
def pyStripWs (cs : List Char) : List Char :=
  ((cs.dropWhile pyIsWs).reverse.dropWhile pyIsWs).reverse

/-- Numeric value of a list of ASCII digits, most significant first. -/
def digitsVal (cs : List Char) : Nat :=
  cs.foldl (fun a c => a * 10 + (c.toNat - 48)) 0

/-- Python `int(s)` for base-10 string arguments: optional surrounding
whitespace, an optional sign, then a non-empty run of digits; anything
else raises `ValueError` (`none`).  Underscore separators and non-ASCII
digits are not modelled; `datetime.datetime.fromtimestamp` is treated as
total on the parsed integer, its platform-specific range limits being
outside the embedding. -/
def pyInt (s : String) : Option Int :=
  let cs := pyStripWs s.data
  let signed : Int × List Char :=
    match cs with
    | '+' :: r => (1, r)
    | '-' :: r => (-1, r)
    | r => (1, r)
  if !signed.2.isEmpty && signed.2.all Char.isDigit then
    some (signed.1 * (digitsVal signed.2 : Int))
  else none

/-- Python string comparison on two character lists: strict lexicographic
order by Unicode code point, a proper prefix comparing smaller. -/
def pyStrLtAux : List Char → List Char → Bool
  | [], [] => false
  | [], _ :: _ => true
  | _ :: _, [] => false
  | a :: as, b :: bs =>
    if a.toNat < b.toNat then true
    else if b.toNat < a.toNat then false
    else pyStrLtAux as bs

/-- Python `a < b` on strings. -/
def pyStrLt (a b : String) : Bool := pyStrLtAux a.data b.data

/-- The start/end validation block of `get_sensors` (lines 133-141): it
runs only when both strings are non-empty; each must then parse as an
integer (else `ValueError("Invalid start or end time.")`), and finally
the original strings are compared with `start > end` — a lexicographic
string comparison, not a comparison of the parsed timestamps. -/
def validateRange (start end_ : String) : Option PyError :=
  if start != "" && end_ != "" then
    match pyInt start, pyInt end_ with
    | some _, some _ =>
      if pyStrLt end_ start then
        some (PyError.valueError "Start time cannot be after end time.")
      else none
    | _, _ => some (PyError.valueError "Invalid start or end time.")
  else none

/-- `LaCrosse.login`.  The response body is reduced to its `idToken`
entry: `none` means the key is absent (the `KeyError` handler fires),
`some none` means it is present but `null`, and `some (some s)` means it
holds the string `s`.  The `self.token` assignment happens inside the
`try`, before the `is None` check, so the stored value is visible even
when that check raises; the returned `Session` is the post-call state. -/
def login (s : Session) (idToken : Option (Option String)) :
    Session × Except PyError Bool :=
  match idToken with
  | none => (s, Except.error (PyError.loginError "Invalid credentials."))
  | some tok =>
    let s2 : Session := ⟨tok⟩
    match tok with
    | none =>
      (s2, Except.error
        (PyError.loginError "Login failed. Check credentials and try again."))
    | some _ => (s2, Except.ok true)

/-- `LaCrosse.get_locations`: guard on an empty token, build the bearer
header (concatenating with a `None` token raises `TypeError`), issue one
GET, require status 200, and map `data["items"]` to `Location` values. -/
def get_locations (s : Session) (resp : LocResp) :
    Except PyError (List Location) × List String :=
  if s.token = some "" then
    (Except.error (PyError.loginError "Login first."), [])
  else
    match s.token with
    | none =>
      (Except.error
        (PyError.typeError "can only concatenate str (not NoneType) to str"), [])
    | some _ =>
      if resp.status ≠ 200 then
        (Except.error (PyError.httpError
          ("Failed to get locations, status code: " ++ toString resp.status)),
         [LOCATIONS_URL])
      else
        match resp.items with
        | none => (Except.error (PyError.keyError "items"), [LOCATIONS_URL])
        | some items =>
          (Except.ok (items.map fun p => ⟨p.1, p.2⟩), [LOCATIONS_URL])

/-- The body of the `for device in data.get("items")` loop of
`get_sensors` for one device entry: build the filtered field list and the
comma-joined `fields` parameter (an empty list becomes `None`), issue the
feed GET, require status 200, extract the nested payload, and run
`Sensor(**device)` — whose pydantic validation requires `permissions` to
be a mapping and `data` to be a mapping. -/
def processDevice (token : String) (location : Location)
    (tz start end_ : String) (feed : String → FeedResp) (d : DeviceEntry) :
    Except PyError Sensor × List String :=
  let fieldNames := d.sensor.fields.filter fun x => pyLower x != "notsupported"
  let fieldsStr : Option String :=
    if fieldNames.isEmpty then none
    else some (String.intercalate "," fieldNames)
  let url := deviceUrl d.id (pyFormatOpt fieldsStr) tz start end_ "ai.ticks.1"
  let resp := feed d.id
  if resp.status ≠ 200 then
    (Except.error (PyError.httpError
      ("Failed to get sensor, status code: " ++ toString resp.status)), [url])
  else
    match extractFeed resp.body d.id with
    | Except.error e => (Except.error e, [url])
    | Except.ok dataJson =>
      match d.sensor.permissions with
      | none =>
        (Except.error
          (PyError.pydanticError "permissions: none is not an allowed value"),
         [url])
      | some perms =>
        match dataJson with
        | Json.obj entries =>
          (Except.ok
            ⟨d.name, d.id, d.sensor.typeName, d.sensor.id, fieldNames,
             location, perms, d.sensor.typeName, Json.obj entries⟩, [url])
        | _ =>
          (Except.error
            (PyError.pydanticError "data: value is not a valid dict"), [url])

/-- The device loop of `get_sensors`: devices are processed strictly in
association-response order, one feed request each; the first exception
aborts the loop (and the whole call), so no partial list escapes. -/
def processDevices (token : String) (location : Location)
    (tz start end_ : String) (feed : String → FeedResp) :
    List DeviceEntry → Except PyError (List Sensor) × List String
  | [] => (Except.ok [], [])
  | d :: ds =>
    let p := processDevice token location tz start end_ feed d
    match p.1 with
    | Except.error e => (Except.error e, p.2)
    | Except.ok sen =>
      let q := processDevices token location tz start end_ feed ds
      match q.1 with
      | Except.error e => (Except.error e, p.2 ++ q.2)
      | Except.ok sens => (Except.ok (sen :: sens), p.2 ++ q.2)

/-- `LaCrosse.get_sensors`.  In source order: the empty-token guard, the
`timezone(tz)` validation (the external zone database is abstracted as
the predicate `tzValid`; an unresolvable identifier raises), the
start/end validation, the bearer header construction, the association
GET with its status check, the `data.get("items")` iteration, and the
per-device loop. -/
def get_sensors (s : Session) (tzValid : String → Bool)
    (srv : SensorsServer) (location : Location) (tz start end_ : String) :
    Except PyError (List Sensor) × List String :=
  if s.token = some "" then
    (Except.error (PyError.loginError "Login first."), [])
  else if tzValid tz then
    match validateRange start end_ with
    | some e => (Except.error e, [])
    | none =>
      match s.token with
      | none =>
        (Except.error
          (PyError.typeError "can only concatenate str (not NoneType) to str"), [])
      | some tok =>
        let url := sensorsUrl location.id
        if srv.assoc.status ≠ 200 then
          (Except.error (PyError.httpError
            ("Failed to get location, status code: " ++ toString srv.assoc.status)),
           [url])
        else
          match srv.assoc.items with
          | none =>
            (Except.error (PyError.typeError "NoneType object is not iterable"),
             [url])
          | some items =>
            let q := processDevices tok location tz start end_ srv.feed items
            (q.1, url :: q.2)
  else (Except.error (PyError.unknownTimeZoneError tz), [])

/-- Observable outcome of `LaCrosse.logout`: post-call session state,
Python result, and the requests issued. -/
structure LogoutOutcome where
  session : Session
  result : Except PyError Bool
  requests : List String

/-- `LaCrosse.logout`: unlike the resolver operations there is no
empty-token guard — the DELETE is issued with whatever token is held
(a `None` token still fails earlier, at header construction).  Success
needs status 200 and the exact body message `Operation Successful`; only
then is the token cleared. -/
def logout (s : Session) (resp : LogoutResp) : LogoutOutcome :=
  match s.token with
  | none =>
    ⟨s, Except.error
      (PyError.typeError "can only concatenate str (not NoneType) to str"), []⟩
  | some _ =>
    if resp.status ≠ 200 then
      ⟨s, Except.error (PyError.httpError
        ("Failed to logout, status code: " ++ toString resp.status)),
       [LOGOUT_URL]⟩
    else
      match resp.message with
      | none => ⟨s, Except.error (PyError.keyError "message"), [LOGOUT_URL]⟩
      | some m =>
        if m ≠ "Operation Successful" then
          ⟨s, Except.error (PyError.httpError ("Failed to logout, message: " ++ m)),
           [LOGOUT_URL]⟩
        else ⟨⟨some ""⟩, Except.ok true, [LOGOUT_URL]⟩

/-- Unfolding of `retryGo` with at least two credits left. -/
theorem retryGo_succ_succ {A : Type} (f : Nat → Except PyError A) (idx n : Nat) :
    retryGo f idx (n + 2) =
      match f idx with
      | Except.ok a => ⟨Except.ok a, 1, 0⟩
      | Except.error e =>
        if e.isHTTP then
          let o := retryGo f (idx + 1) (n + 1)
          ⟨o.result, o.calls + 1, o.sleeps + 1⟩
        else ⟨Except.error e, 1, 0⟩ := by
  rw [retryGo]

/-- Unfolding of `retryGo` on its last credit. -/
theorem retryGo_one {A : Type} (f : Nat → Except PyError A) (idx : Nat) :
    retryGo f idx 1 = ⟨f idx, 1, 0⟩ := by
  rw [retryGo.eq_def]

/-- The retry loop with `n + 1` credits invokes the operation at most
`n + 1` times. -/
theorem retryGo_calls_le {A : Type} (f : Nat → Except PyError A) :
    ∀ n idx, (retryGo f idx (n + 1)).calls ≤ n + 1 := by
  intro n
  induction n with
  | zero => intro idx; rw [retryGo_one]
  | succ k ih =>
    intro idx
    rw [show k + 1 + 1 = k + 2 from rfl, retryGo_succ_succ]
    cases hf : f idx with
    | ok a => simp
    | error e =>
      by_cases hh : e.isHTTP
      · have := ih (idx + 1)
        simp only [hh, if_true]
        omega
      · simp [hh]

/-- If every attempt raises `HTTPError`, the loop with `n + 1` credits
makes exactly `n + 1` calls and `n` sleeps and re-raises the error of the
last attempt unchanged. -/
theorem retryGo_all_http {A : Type} (f : Nat → Except PyError A) :
    ∀ n idx,
      (∀ i, i ≤ n → ∃ m, f (idx + i) = Except.error (PyError.httpError m)) →
      retryGo f idx (n + 1) = ⟨f (idx + n), n + 1, n⟩ := by
  intro n
  induction n with
  | zero => intro idx _; exact retryGo_one f idx
  | succ k ih =>
    intro idx h
    obtain ⟨m, hm⟩ := h 0 (Nat.zero_le _)
    rw [Nat.add_zero] at hm
    have hshift : ∀ i, i ≤ k → ∃ m2, f (idx + 1 + i) = Except.error (PyError.httpError m2) := by
      intro i hi
      have := h (i + 1) (by omega)
      rwa [show idx + (i + 1) = idx + 1 + i from by omega] at this
    rw [show k + 1 + 1 = k + 2 from rfl, retryGo_succ_succ, hm]
    simp only [PyError.isHTTP, if_true]
    rw [ih (idx + 1) hshift]
    rw [show idx + (k + 1) = idx + 1 + k from by omega]

/-- If the first `i` attempts raise `HTTPError` and attempt `i` raises a
non-HTTP exception, the loop propagates that exception immediately, after
`i + 1` calls and `i` sleeps. -/
theorem retryGo_first_non_http {A : Type} (f : Nat → Except PyError A) :
    ∀ i n idx e, i ≤ n →
      (∀ j, j < i → ∃ m, f (idx + j) = Except.error (PyError.httpError m)) →
      f (idx + i) = Except.error e → e.isHTTP = false →
      retryGo f idx (n + 1) = ⟨Except.error e, i + 1, i⟩ := by
  intro i
  induction i with
  | zero =>
    intro n idx e _ _ hf hh
    rw [Nat.add_zero] at hf
    cases n with
    | zero => rw [retryGo_one, hf]
    | succ k =>
      rw [show k + 1 + 1 = k + 2 from rfl, retryGo_succ_succ, hf]
      simp [hh]
  | succ k ih =>
    intro n idx e hle hpre hf hh
    cases n with
    | zero => omega
    | succ km =>
      obtain ⟨m, hm⟩ := hpre 0 (Nat.succ_pos k)
      rw [Nat.add_zero] at hm
      have hshiftpre : ∀ j, j < k → ∃ m2, f (idx + 1 + j) = Except.error (PyError.httpError m2) := by
        intro j hj
        have := hpre (j + 1) (by omega)
        rwa [show idx + (j + 1) = idx + 1 + j from by omega] at this
      have hshiftf : f (idx + 1 + k) = Except.error e := by
        rwa [show idx + (k + 1) = idx + 1 + k from by omega] at hf
      rw [show km + 1 + 1 = km + 2 from rfl, retryGo_succ_succ, hm]
      simp only [PyError.isHTTP, if_true]
      rw [ih km (idx + 1) e (by omega) hshiftpre hshiftf hh]

/-- C2: an operation wrapped by `_retry` is invoked at most 5 times.  If
every attempt raises `HTTPError`, the wrapper makes exactly 5 calls with
a one-second sleep after each of the first 4 failures and re-raises the
5th consecutive error unchanged.  A non-HTTP failure (`LoginError`,
`ValueError`, ...) occurring first at attempt `i` propagates immediately:
`i + 1` calls in total and no further retry. -/
theorem retry_policy {A : Type} (f : Nat → Except PyError A) :
    (retryWrap f).calls ≤ 5 ∧
    ((∀ i, i ≤ 4 → ∃ m, f i = Except.error (PyError.httpError m)) →
      retryWrap f = ⟨f 4, 5, 4⟩) ∧
    (∀ i e, i ≤ 4 →
      (∀ j, j < i → ∃ m, f j = Except.error (PyError.httpError m)) →
      f i = Except.error e → e.isHTTP = false →
      retryWrap f = ⟨Except.error e, i + 1, i⟩) := by
  refine ⟨retryGo_calls_le f 4 0, ?_, ?_⟩
  · intro h
    have := retryGo_all_http f 4 0 (by intro i hi; simpa using h i hi)
    simpa using this
  · intro i e hi hpre hf hh
    have := retryGo_first_non_http f i 4 0 e hi
      (by intro j hj; simpa using hpre j hj) (by simpa using hf) hh
    simpa using this

/-- Witness for `retry_policy`: an operation raising `HTTPError` on every
attempt is invoked exactly 5 times, with 4 sleeps, and the 5th error is
the one propagated. -/
theorem retry_policy_witness :
    retryWrap (fun i => (Except.error (PyError.httpError (toString i)) : Except PyError Bool)) =
      ⟨Except.error (PyError.httpError "4"), 5, 4⟩ := by
  have h := (retry_policy
      (fun i => (Except.error (PyError.httpError (toString i)) : Except PyError Bool))).2.1
    (by intro i _; exact ⟨toString i, rfl⟩)
  exact h

/-- C3: `get_locations` and `get_sensors` invoked while the token is the
empty string fail with `LoginError("Login first.")` and issue zero
network requests; the `_retry` decorator does not mask this (a
`LoginError` is not retried), so the decorated call makes exactly one
attempt. -/
theorem resolver_empty_token_no_request (resp : LocResp)
    (tzValid : String → Bool) (srv : SensorsServer) (loc : Location)
    (tz start end_ : String) :
    get_locations ⟨some ""⟩ resp =
      (Except.error (PyError.loginError "Login first."), []) ∧
    get_sensors ⟨some ""⟩ tzValid srv loc tz start end_ =
      (Except.error (PyError.loginError "Login first."), []) ∧
    retryWrap (fun _ => (get_locations ⟨some ""⟩ resp).1) =
      ⟨Except.error (PyError.loginError "Login first."), 1, 0⟩ ∧
    retryWrap (fun _ => (get_sensors ⟨some ""⟩ tzValid srv loc tz start end_).1) =
      ⟨Except.error (PyError.loginError "Login first."), 1, 0⟩ :=
  ⟨rfl, rfl, rfl, rfl⟩

/-- C6: when the login response has no `idToken` key, the `KeyError`
handler raises `LoginError("Invalid credentials.")` and the session —
hence its token — is left unchanged. -/
theorem login_missing_token_field (s : Session) :
    login s none = (s, Except.error (PyError.loginError "Invalid credentials.")) :=
  rfl

/-- C7 counterexample: a login response whose `idToken` key is present
with the empty-string value makes `login` return success, storing the
empty token — it does not raise `LoginError`. -/
theorem login_empty_token_accepted :
    login ⟨some ""⟩ (some (some "")) = (⟨some ""⟩, Except.ok true) := rfl

/-- C7 amended: only a `null` token value is rejected — the `is None`
check raises `LoginError("Login failed. Check credentials and try
again.")`, with `None` already stored as the token — while a present
empty-string token value is accepted and `login` reports success. -/
theorem login_null_token_rejected (s : Session) :
    login s (some none) =
      (⟨none⟩, Except.error
        (PyError.loginError "Login failed. Check credentials and try again.")) ∧
    login s (some (some "")) = (⟨some ""⟩, Except.ok true) :=
  ⟨rfl, rfl⟩

/-- Discriminator: is an outcome a raised `LoginError`? -/
def isLoginErr : Except PyError Bool → Bool
  | Except.error (PyError.loginError _) => true
  | _ => false

/-- C8: `logout` has no empty-token guard — invoked with the empty token
it still issues exactly one DELETE to the invalidation endpoint, and its
outcome is never a `LoginError`, whatever the server responds. -/
theorem logout_empty_token_still_requests (resp : LogoutResp) :
    (logout ⟨some ""⟩ resp).requests = [LOGOUT_URL] ∧
    isLoginErr (logout ⟨some ""⟩ resp).result = false := by
  obtain ⟨st, msg⟩ := resp
  by_cases h : st ≠ 200
  · simp [logout, h, isLoginErr]
  · cases msg with
    | none => simp [logout, h, isLoginErr]
    | some m =>
      by_cases hm : m ≠ "Operation Successful"
      · simp [logout, h, hm, isLoginErr]
      · simp [logout, h, hm, isLoginErr]

/-- Unfolding of `get_sensors` once the guards pass: a non-empty token, a
valid timezone identifier, and a validation block that raises nothing. -/
theorem get_sensors_network (t : String) (ht : t ≠ "")
    (tzValid : String → Bool) (tz : String) (htz : tzValid tz = true)
    (srv : SensorsServer) (loc : Location) (start end_ : String)
    (hv : validateRange start end_ = none) :
    get_sensors ⟨some t⟩ tzValid srv loc tz start end_ =
      (if srv.assoc.status ≠ 200 then
        (Except.error (PyError.httpError
          ("Failed to get location, status code: " ++ toString srv.assoc.status)),
         [sensorsUrl loc.id])
      else
        match srv.assoc.items with
        | none =>
          (Except.error (PyError.typeError "NoneType object is not iterable"),
           [sensorsUrl loc.id])
        | some items =>
          let q := processDevices t loc tz start end_ srv.feed items
          (q.1, sensorsUrl loc.id :: q.2)) := by
  have hne : ¬ ((⟨some t⟩ : Session).token = some "") := by simp [ht]
  unfold get_sensors
  rw [if_neg hne, if_pos htz, hv]

/-- Inversion: a successful `get_sensors` call passed every guard, found
an `items` list, and its device loop succeeded on exactly that list. -/
theorem get_sensors_ok_inv (s : Session) (tzValid : String → Bool)
    (srv : SensorsServer) (loc : Location) (tz start end_ : String)
    (sens : List Sensor)
    (hok : (get_sensors s tzValid srv loc tz start end_).1 = Except.ok sens) :
    ∃ t items, s.token = some t ∧ srv.assoc.items = some items ∧
      (processDevices t loc tz start end_ srv.feed items).1 = Except.ok sens := by
  unfold get_sensors at hok
  by_cases h1 : s.token = some ""
  · rw [if_pos h1] at hok; exact absurd hok (by simp)
  · rw [if_neg h1] at hok
    by_cases h2 : tzValid tz = true
    · rw [if_pos h2] at hok
      cases hv : validateRange start end_ with
      | some e => simp [hv] at hok
      | none =>
        simp only [hv] at hok
        cases htok : s.token with
        | none => simp [htok] at hok
        | some t =>
          simp only [htok] at hok
          by_cases h3 : srv.assoc.status ≠ 200
          · rw [if_pos h3] at hok; exact absurd hok (by simp)
          · rw [if_neg h3] at hok
            cases hitems : srv.assoc.items with
            | none => simp [hitems] at hok
            | some items =>
              simp only [hitems] at hok
              exact ⟨t, items, rfl, rfl, hok⟩
    · rw [if_neg h2] at hok; exact absurd hok (by simp)

/-- A device whose feed request answers a non-200 status makes its
processing raise `HTTPError` carrying that status. -/
theorem processDevice_feed_fail (token : String) (loc : Location)
    (tz start end_ : String) (feed : String → FeedResp) (d : DeviceEntry)
    (h : (feed d.id).status ≠ 200) :
    (processDevice token loc tz start end_ feed d).1 =
      Except.error (PyError.httpError
        ("Failed to get sensor, status code: " ++ toString (feed d.id).status)) := by
  simp only [processDevice]
  rw [if_pos h]

/-- Shape of a successfully processed device: every `Sensor` field is
determined by the device entry; in particular the field list is the
order-preserving `notsupported` filter of the server-sent list, `model`
and `type` both hold the nested type name, and `permissions` was
present. -/
theorem processDevice_ok_shape (token : String) (loc : Location)
    (tz start end_ : String) (feed : String → FeedResp) (d : DeviceEntry)
    (sen : Sensor)
    (h : (processDevice token loc tz start end_ feed d).1 = Except.ok sen) :
    sen.name = d.name ∧ sen.device_id = d.id ∧
    sen.type = d.sensor.typeName ∧ sen.model = d.sensor.typeName ∧
    sen.sensor_id = d.sensor.id ∧
    sen.sensor_field_names =
      d.sensor.fields.filter (fun x => pyLower x != "notsupported") ∧
    sen.location = loc ∧ d.sensor.permissions = some sen.permissions := by
  simp only [processDevice] at h
  split at h
  · exact absurd h (by simp)
  · split at h
    · exact absurd h (by simp)
    · split at h
      · exact absurd h (by simp)
      next perms hperms =>
        split at h
        next entries _ =>
          simp only [Except.ok.injEq] at h
          subst h
          exact ⟨rfl, rfl, rfl, rfl, rfl, rfl, rfl, by rw [hperms]⟩
        · exact absurd h (by simp)

/-- A successful device loop pairs each returned `Sensor`, in order, with
the device entry it was built from. -/
theorem processDevices_ok (token : String) (loc : Location)
    (tz start end_ : String) (feed : String → FeedResp) :
    ∀ (ds : List DeviceEntry) (sens : List Sensor),
      (processDevices token loc tz start end_ feed ds).1 = Except.ok sens →
      List.Forall₂ (fun sen d =>
        (processDevice token loc tz start end_ feed d).1 = Except.ok sen) sens ds := by
  intro ds
  induction ds with
  | nil =>
    intro sens h
    simp only [processDevices] at h
    cases h
    exact List.Forall₂.nil
  | cons d ds ih =>
    intro sens h
    simp only [processDevices] at h
    cases hp : (processDevice token loc tz start end_ feed d).1 with
    | error e => rw [hp] at h; exact absurd h (by simp)
    | ok sen =>
      rw [hp] at h
      cases hq : (processDevices token loc tz start end_ feed ds).1 with
      | error e => rw [hq] at h; exact absurd h (by simp)
      | ok sens2 =>
        rw [hq] at h
        simp only [Except.ok.injEq] at h
        subst h
        exact List.Forall₂.cons hp (ih sens2 hq)

/-- Left-to-right membership along a `Forall₂` relation. -/
theorem forall2_mem_left {α β : Type} {R : α → β → Prop} :
    ∀ {l1 : List α} {l2 : List β}, List.Forall₂ R l1 l2 →
      ∀ a ∈ l1, ∃ b ∈ l2, R a b := by
  intro l1 l2 h
  induction h with
  | nil => intro a ha; cases ha
  | cons hr _ ih =>
    intro a ha
    cases ha with
    | head => exact ⟨_, List.mem_cons_self _ _, hr⟩
    | tail _ hmem =>
      obtain ⟨b, hb, hrb⟩ := ih _ hmem
      exact ⟨b, List.mem_cons_of_mem _ hb, hrb⟩

/-- Right-to-left membership along a `Forall₂` relation. -/
theorem forall2_mem_right {α β : Type} {R : α → β → Prop} :
    ∀ {l1 : List α} {l2 : List β}, List.Forall₂ R l1 l2 →
      ∀ b ∈ l2, ∃ a ∈ l1, R a b := by
  intro l1 l2 h
  induction h with
  | nil => intro b hb; cases hb
  | cons hr _ ih =>
    intro b hb
    cases hb with
    | head => exact ⟨_, List.mem_cons_self _ _, hr⟩
    | tail _ hmem =>
      obtain ⟨a, ha, hra⟩ := ih _ hmem
      exact ⟨a, List.mem_cons_of_mem _ ha, hra⟩

/-- C1: with a non-empty token, a valid timezone, and non-empty `start`
and `end` strings that both parse as base-10 integers, `get_sensors`
raises `ValueError("Start time cannot be after end time.")` before
issuing any network request exactly when `start` is lexicographically
greater than `end` as a raw string — the parsed timestamp values play no
role in the comparison. -/
theorem get_sensors_lexicographic_range_check
    (t : String) (ht : t ≠ "") (tzValid : String → Bool) (tz : String)
    (htz : tzValid tz = true) (srv : SensorsServer) (loc : Location)
    (start end_ : String) (hs : start ≠ "") (he : end_ ≠ "")
    (a : Int) (ha : pyInt start = some a) (b : Int) (hb : pyInt end_ = some b) :
    get_sensors ⟨some t⟩ tzValid srv loc tz start end_ =
        (Except.error (PyError.valueError "Start time cannot be after end time."), [])
      ↔ pyStrLt end_ start = true := by
  have hne : ¬ ((⟨some t⟩ : Session).token = some "") := by simp [ht]
  have hcond : (start != "" && end_ != "") = true := by simp [hs, he]
  by_cases hlt : pyStrLt end_ start = true
  · have hv : validateRange start end_ =
        some (PyError.valueError "Start time cannot be after end time.") := by
      unfold validateRange
      rw [if_pos hcond, ha, hb, if_pos hlt]
    constructor
    · intro _; exact hlt
    · intro _
      unfold get_sensors
      rw [if_neg hne, if_pos htz, hv]
  · have hv : validateRange start end_ = none := by
      unfold validateRange
      rw [if_pos hcond, ha, hb, if_neg hlt]
    rw [get_sensors_network t ht tzValid tz htz srv loc start end_ hv]
    constructor
    · intro hcontra
      exfalso
      by_cases h3 : srv.assoc.status ≠ 200
      · rw [if_pos h3] at hcontra
        simp at hcontra
      · rw [if_neg h3] at hcontra
        cases hitems : srv.assoc.items with
        | none => rw [hitems] at hcontra; simp at hcontra
        | some items => rw [hitems] at hcontra; simp at hcontra
    · intro hl; exact absurd hl hlt

/-- A server stub answering 200 with an empty device list. -/
def srvEmpty : SensorsServer := ⟨⟨200, some []⟩, fun _ => ⟨200, Json.null⟩⟩

/-- Witness for `get_sensors_lexicographic_range_check`: start `9` and
end `10` are numerically increasing yet lexicographically decreasing, and
the call is rejected before any request. -/
theorem get_sensors_lexicographic_range_check_witness :
    get_sensors ⟨some "tok"⟩ (fun _ => true) srvEmpty ⟨"L1", "Home"⟩
        "America/New_York" "9" "10" =
      (Except.error (PyError.valueError "Start time cannot be after end time."), []) ∧
    (9 : Int) < 10 := by
  constructor
  · exact (get_sensors_lexicographic_range_check "tok" (by decide) (fun _ => true)
      "America/New_York" rfl srvEmpty ⟨"L1", "Home"⟩ "9" "10" (by decide) (by decide)
      9 (by decide) 10 (by decide)).mpr (by decide)
  · decide

/-- If every device in the prefix processes successfully and the next
device's feed request answers non-200, the device loop raises exactly
that `HTTPError`. -/
theorem processDevices_feed_fail (token : String) (loc : Location)
    (tz start end_ : String) (feed : String → FeedResp) :
    ∀ (pre : List DeviceEntry) (bad : DeviceEntry) (rest : List DeviceEntry),
      (∀ d ∈ pre, ∃ sen,
        (processDevice token loc tz start end_ feed d).1 = Except.ok sen) →
      (feed bad.id).status ≠ 200 →
      (processDevices token loc tz start end_ feed (pre ++ bad :: rest)).1 =
        Except.error (PyError.httpError
          ("Failed to get sensor, status code: " ++ toString (feed bad.id).status)) := by
  intro pre
  induction pre with
  | nil =>
    intro bad rest _ hbad
    simp only [List.nil_append, processDevices]
    rw [processDevice_feed_fail token loc tz start end_ feed bad hbad]
  | cons d pre ih =>
    intro bad rest hpre hbad
    obtain ⟨sen, hsen⟩ := hpre d (List.mem_cons_self d pre)
    have hrest : (processDevices token loc tz start end_ feed (pre.append (bad :: rest))).1 =
        Except.error (PyError.httpError
          ("Failed to get sensor, status code: " ++ toString (feed bad.id).status)) :=
      ih bad rest (fun d2 hd2 => hpre d2 (List.mem_cons_of_mem d hd2)) hbad
    simp only [List.cons_append, processDevices, hsen]
    rw [hrest]

/-- C4: an HTTP failure aborts `get_sensors` whole.  A non-200
association response raises `HTTPError` after that single request; if
every device before some device succeeds and that device's feed request
answers non-200, the call raises `HTTPError` carrying that status; and a
successful call returns exactly one `Sensor` per device of the
association response — never a partial list. -/
theorem get_sensors_http_failure_aborts
    (t : String) (ht : t ≠ "") (tzValid : String → Bool) (tz : String)
    (htz : tzValid tz = true) (srv : SensorsServer) (loc : Location)
    (start end_ : String) (hv : validateRange start end_ = none) :
    (srv.assoc.status ≠ 200 →
      get_sensors ⟨some t⟩ tzValid srv loc tz start end_ =
        (Except.error (PyError.httpError
          ("Failed to get location, status code: " ++ toString srv.assoc.status)),
         [sensorsUrl loc.id])) ∧
    (∀ (pre : List DeviceEntry) (bad : DeviceEntry) (rest : List DeviceEntry),
      srv.assoc.status = 200 →
      srv.assoc.items = some (pre ++ bad :: rest) →
      (∀ d ∈ pre, ∃ sen,
        (processDevice t loc tz start end_ srv.feed d).1 = Except.ok sen) →
      (srv.feed bad.id).status ≠ 200 →
      (get_sensors ⟨some t⟩ tzValid srv loc tz start end_).1 =
        Except.error (PyError.httpError
          ("Failed to get sensor, status code: " ++ toString (srv.feed bad.id).status))) ∧
    (∀ (items : List DeviceEntry) (sens : List Sensor),
      srv.assoc.items = some items →
      (get_sensors ⟨some t⟩ tzValid srv loc tz start end_).1 = Except.ok sens →
      sens.length = items.length) := by
  rw [get_sensors_network t ht tzValid tz htz srv loc start end_ hv]
  refine ⟨fun h3 => by rw [if_pos h3], ?_, ?_⟩
  · intro pre bad rest h200 hitems hpre hbad
    rw [if_neg (by simp [h200]), hitems]
    show (processDevices t loc tz start end_ srv.feed (pre ++ bad :: rest)).1 = _
    exact processDevices_feed_fail t loc tz start end_ srv.feed pre bad rest hpre hbad
  · intro items sens hitems hok
    by_cases h3 : srv.assoc.status ≠ 200
    · rw [if_pos h3] at hok; exact absurd hok (by simp)
    · rw [if_neg h3, hitems] at hok
      exact (processDevices_ok t loc tz start end_ srv.feed items sens hok).length_eq

/-- A single well-formed device whose feed request will be answered 404. -/
def dBad : DeviceEntry :=
  ⟨"D1", "Outdoor", ⟨"S1", "T1", ["Temperature"], some [("read", true)]⟩⟩

/-- A server whose association succeeds but whose feed requests fail. -/
def srvFeed404 : SensorsServer := ⟨⟨200, some [dBad]⟩, fun _ => ⟨404, Json.null⟩⟩

/-- Witness for `get_sensors_http_failure_aborts`: one device, feed
answered 404 — the whole call fails with `HTTPError` and no `Sensor`. -/
theorem get_sensors_http_failure_aborts_witness :
    (get_sensors ⟨some "tok"⟩ (fun _ => true) srvFeed404 ⟨"L1", "Home"⟩
        "America/New_York" "" "").1 =
      Except.error (PyError.httpError "Failed to get sensor, status code: 404") := by
  have h := (get_sensors_http_failure_aborts "tok" (by decide) (fun _ => true)
      "America/New_York" rfl srvFeed404 ⟨"L1", "Home"⟩ "" "" rfl).2.1
    [] dBad [] rfl rfl (by intro d hd; cases hd) (by decide)
  exact h

/-- C5: every `Sensor` a successful `get_sensors` call returns pairs up,
in order, with a device of the association response; its field list is
the case-insensitive `notsupported` filter of that device's server-sent
field list — an order-preserving sublist none of whose entries lowercases
to `notsupported`. -/
theorem get_sensors_field_names_filtered
    (s : Session) (tzValid : String → Bool) (srv : SensorsServer)
    (loc : Location) (tz start end_ : String)
    (items : List DeviceEntry) (hitems : srv.assoc.items = some items)
    (sens : List Sensor)
    (hok : (get_sensors s tzValid srv loc tz start end_).1 = Except.ok sens) :
    List.Forall₂ (fun sen d =>
      sen.sensor_field_names =
        d.sensor.fields.filter (fun x => pyLower x != "notsupported") ∧
      List.Sublist sen.sensor_field_names d.sensor.fields ∧
      ∀ x ∈ sen.sensor_field_names, pyLower x ≠ "notsupported") sens items := by
  obtain ⟨t, items2, htok, hitems2, hloop⟩ :=
    get_sensors_ok_inv s tzValid srv loc tz start end_ sens hok
  rw [hitems] at hitems2
  injection hitems2 with hi
  subst hi
  have hf := processDevices_ok t loc tz start end_ srv.feed items sens hloop
  refine hf.imp ?_
  intro sen d hp
  obtain ⟨-, -, -, -, -, hfield, -, -⟩ :=
    processDevice_ok_shape t loc tz start end_ srv.feed d sen hp
  refine ⟨hfield, ?_, ?_⟩
  · rw [hfield]; exact List.filter_sublist _
  · intro x hx
    rw [hfield] at hx
    have := List.of_mem_filter hx
    simpa using this

/-- A device whose server-sent field list mixes supported fields with a
`NotSupported` marker. -/
def dMixed : DeviceEntry :=
  ⟨"D1", "Outdoor", ⟨"S1", "T1", ["Temperature", "NotSupported"], some [("read", true)]⟩⟩

/-- A feed response body carrying the nested payload for device `D1`. -/
def feedBodyD1 : Json :=
  Json.obj [("ref.user-device.D1",
    Json.obj [("ai.ticks.1",
      Json.obj [("fields", Json.obj [("Temperature", Json.arr [])])])])]

/-- A server returning `dMixed` and a well-formed feed. -/
def srvMixed : SensorsServer := ⟨⟨200, some [dMixed]⟩, fun _ => ⟨200, feedBodyD1⟩⟩

/-- The `Sensor` that `get_sensors` builds from `dMixed` via `srvMixed`. -/
def senMixed : Sensor :=
  ⟨"Outdoor", "D1", "T1", "S1", ["Temperature"], ⟨"L1", "Home"⟩,
   [("read", true)], "T1", Json.obj [("Temperature", Json.arr [])]⟩

/-- Witness for `get_sensors_field_names_filtered`: the mixed-case
`NotSupported` entry is dropped and the remaining field kept in place. -/
theorem get_sensors_field_names_filtered_witness :
    senMixed.sensor_field_names =
      dMixed.sensor.fields.filter (fun x => pyLower x != "notsupported") ∧
    List.Sublist senMixed.sensor_field_names dMixed.sensor.fields := by
  have h := get_sensors_field_names_filtered ⟨some "tok"⟩ (fun _ => true) srvMixed
    ⟨"L1", "Home"⟩ "America/New_York" "" "" [dMixed] rfl [senMixed] rfl
  cases h with
  | cons hp _ => exact ⟨hp.1, hp.2.1⟩

/-- C9 counterexample: a device whose nested sensor object has no
`permissions` mapping does not yield a `Sensor` with the field absent —
`permissions` is required by the pydantic model, so `Sensor(**device)`
raises and the whole `get_sensors` call fails. -/
theorem get_sensors_missing_permissions_fails :
    (get_sensors ⟨some "tok"⟩ (fun _ => true)
        ⟨⟨200, some [⟨"D1", "Outdoor", ⟨"S1", "T1", ["Temperature"], none⟩⟩]⟩,
         fun _ => ⟨200, feedBodyD1⟩⟩
        ⟨"L1", "Home"⟩ "America/New_York" "" "").1 =
      Except.error (PyError.pydanticError "permissions: none is not an allowed value") :=
  rfl

/-- C9 amended: `permissions` is a required field of the pydantic
`Sensor` model, not an optional one — whenever `get_sensors` succeeds,
every device entry of the association response carried a permissions
mapping, and a device without one makes the call fail with a validation
error instead of producing a permissions-less `Sensor`. -/
theorem get_sensors_requires_permissions
    (s : Session) (tzValid : String → Bool) (srv : SensorsServer)
    (loc : Location) (tz start end_ : String)
    (items : List DeviceEntry) (hitems : srv.assoc.items = some items)
    (sens : List Sensor)
    (hok : (get_sensors s tzValid srv loc tz start end_).1 = Except.ok sens) :
    ∀ d ∈ items, d.sensor.permissions.isSome = true := by
  obtain ⟨t, items2, htok, hitems2, hloop⟩ :=
    get_sensors_ok_inv s tzValid srv loc tz start end_ sens hok
  rw [hitems] at hitems2
  injection hitems2 with hi
  subst hi
  have hf := processDevices_ok t loc tz start end_ srv.feed items sens hloop
  intro d hd
  obtain ⟨sen, _, hp⟩ := forall2_mem_right hf d hd
  obtain ⟨-, -, -, -, -, -, -, hperms⟩ :=
    processDevice_ok_shape t loc tz start end_ srv.feed d sen hp
  rw [hperms]
  rfl

/-- Witness for `get_sensors_requires_permissions`: on the successful
`srvMixed` run, the single device indeed carries a permissions mapping. -/
theorem get_sensors_requires_permissions_witness :
    dMixed.sensor.permissions.isSome = true :=
  get_sensors_requires_permissions ⟨some "tok"⟩ (fun _ => true) srvMixed
    ⟨"L1", "Home"⟩ "America/New_York" "" "" [dMixed] rfl [senMixed] rfl dMixed
    (List.mem_cons_self _ _)

/-- C10: every `Sensor` returned by `get_sensors` has `model` equal to
`type`: both fields are filled from the same nested value
`sensor["type"]["name"]` of the association response. -/
theorem get_sensors_model_eq_type
    (s : Session) (tzValid : String → Bool) (srv : SensorsServer)
    (loc : Location) (tz start end_ : String)
    (sens : List Sensor)
    (hok : (get_sensors s tzValid srv loc tz start end_).1 = Except.ok sens) :
    ∀ sen ∈ sens, sen.model = sen.type := by
  obtain ⟨t, items, htok, hitems, hloop⟩ :=
    get_sensors_ok_inv s tzValid srv loc tz start end_ sens hok
  have hf := processDevices_ok t loc tz start end_ srv.feed items sens hloop
  intro sen hsen
  obtain ⟨d, _, hp⟩ := forall2_mem_left hf sen hsen
  obtain ⟨-, -, hty, hmo, -, -, -, -⟩ :=
    processDevice_ok_shape t loc tz start end_ srv.feed d sen hp
  rw [hmo, hty]

/-- Witness for `get_sensors_model_eq_type`: the `Sensor` built by the
successful `srvMixed` run has equal `model` and `type`. -/
theorem get_sensors_model_eq_type_witness :
    senMixed.model = senMixed.type :=
  get_sensors_model_eq_type ⟨some "tok"⟩ (fun _ => true) srvMixed ⟨"L1", "Home"⟩
    "America/New_York" "" "" [senMixed] rfl senMixed (List.mem_cons_self _ _)

end LacrosseView
